import Mathlib

/-!
Verification of the OPN document-agent system against its specification.

The development shallowly embeds the Python sources:
  * `AI_open_negotiation/models/result_models.py` (`GenerationStats`),
  * `AI_open_negotiation/models/task_models.py` (`DocumentTask`),
  * `AI_open_negotiation/agents/document_agent/base_agent.py` (retry loop),
  * `AI_open_negotiation/agents/document_agent/orchestrator_agent.py` (pipeline),
  * `AI_open_negotiation/utils/file_utils.py` (`safe_copy`, `merge_folders`),
  * `repi/app/services/orchestration_service.py` (routing and payload build).

Python `int` is modelled as `Int`, Python `float` as `Rat` (exact arithmetic),
Python lists as `List`, dictionaries as association lists, and `None` as
`Option.none`.  All definitions are executable so concrete runs evaluate by
`decide` or `rfl`.
-/

/-- Embeds the dataclass `GenerationStats` of `result_models.py`.
Counts are Python ints; `duration_seconds` is a Python float modelled as `Rat`;
`output_files` and `errors` are Python lists of strings. -/
structure GenerationStats where
  total_records : Int := 0
  successful : Int := 0
  failed : Int := 0
  skipped : Int := 0
  duration_seconds : Rat := 0
  output_files : List String := []
  errors : List String := []
deriving DecidableEq, Repr

/-- Embeds `GenerationStats.merge`: field-wise addition of the numeric fields
and concatenation (in argument order) of the two list fields. -/
def GenerationStats.merge (s o : GenerationStats) : GenerationStats :=
  { total_records := s.total_records + o.total_records
    successful := s.successful + o.successful
    failed := s.failed + o.failed
    skipped := s.skipped + o.skipped
    duration_seconds := s.duration_seconds + o.duration_seconds
    output_files := s.output_files ++ o.output_files
    errors := s.errors ++ o.errors }

/-- Embeds the property `GenerationStats.success_rate`: returns `0.0` when
`total_records == 0`, otherwise `(successful / total_records) * 100`. -/
def GenerationStats.success_rate (s : GenerationStats) : Rat :=
  if s.total_records = 0 then 0
  else ((s.successful : Rat) / (s.total_records : Rat)) * 100

/-- Embeds the enum `TaskStatus` of `task_models.py`.  The Python value
`PARTIAL_FAILURE` is named `partFailure` here. -/
inductive TaskStatus where
  | pending
  | in_progress
  | completed
  | failed
  | partFailure
  | cancelled
deriving DecidableEq, Repr

/-- Embeds the dataclass `DocumentTask` of `task_models.py`, restricted to the
fields the retry logic reads or writes (`task_id`, `document_type`,
`input_data`, `metadata` and the timestamps are never consulted by
`execute_with_retry`).  `retry_count` and `max_retries` are non-negative
Python ints, modelled as `Nat`. -/
structure DocumentTask where
  status : TaskStatus := .pending
  retry_count : Nat := 0
  max_retries : Nat := 3
  error_message : Option String := none
deriving DecidableEq, Repr

/-- Embeds `DocumentTask.can_retry`: `retry_count < max_retries`. -/
def DocumentTask.can_retry (t : DocumentTask) : Bool :=
  t.retry_count < t.max_retries

/-- Embeds `DocumentTask.increment_retry`: bumps the counter and resets the
status to pending. -/
def DocumentTask.increment_retry (t : DocumentTask) : DocumentTask :=
  { t with retry_count := t.retry_count + 1, status := .pending }

/-- Embeds `DocumentTask.mark_failed`: sets status `FAILED` and stores the
error message. -/
def DocumentTask.mark_failed (t : DocumentTask) (error : String) : DocumentTask :=
  { t with status := .failed, error_message := some error }

/-- Embeds the retry-related fields of `AgentConfig` in `base_agent.py`
(`max_retries` lives on the task; the remaining config fields are not used by
the retry logic).  The two floats are modelled as `Rat`. -/
structure AgentConfig where
  retry_delay_seconds : Rat := 1
  retry_backoff_multiplier : Rat := 2
deriving DecidableEq, Repr

/-- Embeds `BaseAgent._calculate_retry_delay`:
`retry_delay_seconds * retry_backoff_multiplier ** (attempt - 1)`.
Both call sites pass the freshly incremented `retry_count`, so `attempt ≥ 1`
and the truncated `Nat` subtraction matches the Python expression. -/
def calculate_retry_delay (cfg : AgentConfig) (attempt : Nat) : Rat :=
  cfg.retry_delay_seconds * cfg.retry_backoff_multiplier ^ (attempt - 1)

/-- One attempt of `BaseAgent.execute` as observed by `execute_with_retry`:
either the task comes back with a new status and `error_message` field
(`ok`), or the attempt raised an exception whose `str` is `msg` (`exn`).
All agents in this repository mutate the task they were handed and return
that same object, so the returned task's `retry_count` equals the caller's. -/
inductive ExecStep where
  | ok (status : TaskStatus) (error_message : Option String)
  | exn (msg : String)

/-- The loop body of `BaseAgent.execute_with_retry`, with an explicit fuel
argument for structural termination.  `exec` gives the outcome of the attempt
made at each value of `retry_count`; `lastError` models the `last_error`
local; `delays` accumulates the values passed to `asyncio.sleep`, in order.
The fuel-exhausted case repeats the loop-exit branch; the wrapper below
supplies enough fuel that it is never reached before `can_retry` fails.
When an attempt returns status `FAILED` the code re-checks
`result.can_retry()`; the result is the same object as the task, whose
counter is unchanged since the loop guard, so the check always succeeds and
the branch retries.  The dead `else` arm of the exception handler
(guard-false inside a guard-true iteration) is therefore not represented. -/
def execute_with_retry_go (cfg : AgentConfig) (exec : Nat → ExecStep) :
    Nat → DocumentTask → Option String → List Rat → DocumentTask × List Rat
  | 0, t, lastError, delays =>
      (t.mark_failed (match lastError with | some s => s | none => "Max retries exceeded"),
        delays)
  | fuel+1, t, lastError, delays =>
      if t.can_retry then
        match exec t.retry_count with
        | .ok .completed err => ({ t with status := .completed, error_message := err }, delays)
        | .ok .failed err =>
            let t1 := DocumentTask.increment_retry { t with status := .failed, error_message := err }
            execute_with_retry_go cfg exec fuel t1 lastError
              (delays ++ [calculate_retry_delay cfg t1.retry_count])
        | .ok st err => ({ t with status := st, error_message := err }, delays)
        | .exn msg =>
            let t1 := t.increment_retry
            execute_with_retry_go cfg exec fuel t1 (some msg)
              (delays ++ [calculate_retry_delay cfg t1.retry_count])
      else
        (t.mark_failed (match lastError with | some s => s | none => "Max retries exceeded"),
          delays)

/-- Embeds `BaseAgent.execute_with_retry`.  Returns the final task together
with the list of backoff delays slept, in order.  Each loop iteration
increments `retry_count` by one, so `max_retries - retry_count + 1` units of
fuel outlast the loop guard. -/
def execute_with_retry (cfg : AgentConfig) (exec : Nat → ExecStep)
    (t : DocumentTask) : DocumentTask × List Rat :=
  execute_with_retry_go cfg exec (t.max_retries - t.retry_count + 1) t none []

/-- The `stats` dictionary read from a generation task's metadata in
`OrchestratorAgent.process_document_request` (`stats_data.get(...)` with the
defaults shown there).  `output_files` is *not* read there, hence absent. -/
structure GenStatsData where
  total_records : Int := 0
  successful : Int := 0
  failed : Int := 0
  skipped : Int := 0
  duration_seconds : Rat := 0
  errors : List String := []
deriving DecidableEq, Repr

/-- One element of `generation_results` in
`OrchestratorAgent.process_document_request`: either an exception propagated
by `asyncio.gather(..., return_exceptions=True)` (with its `str`), or a
`DocumentTask` with its final status, `error_message`, and the optional
`stats` entry of its metadata. -/
inductive GenResult where
  | exn (msg : String)
  | task (status : TaskStatus) (error_message : Option String)
      (stats : Option GenStatsData)

/-- Python's `x or default` for an optional string `x`: `None` and `""` are
falsy. -/
def pyOrStr (o : Option String) (d : String) : String :=
  match o with
  | some s => if s = "" then d else s
  | none => d

/-- Python's `str` applied to an `Optional[str]` inside an f-string:
`None` prints as `"None"`. -/
def pyStrOptional (o : Option String) : String :=
  match o with
  | some s => s
  | none => "None"

/-- Accumulator of the generation-aggregation loop in
`process_document_request` (the locals `result.errors` / `result.warnings`
growth, `has_failures` and `combined_stats`). -/
structure GenAggregation where
  errors : List String := []
  warnings : List String := []
  has_failures : Bool := false
  combined_stats : GenerationStats := {}
deriving Repr

/-- One iteration of the `for gen_result in generation_results` loop of
`process_document_request`: exceptions append their `str` to the errors and
set `has_failures`; a `FAILED` task appends `error_message or "Generation
failed"` to the errors; a `PARTIAL_FAILURE` task appends `error_message or
"Partial failure"` to the warnings; in every task case the metadata stats
(absent entries defaulting per `stats_data.get`) are rebuilt into a
`GenerationStats` without `output_files` and merged into the running total. -/
def aggregate_step (acc : GenAggregation) (r : GenResult) : GenAggregation :=
  match r with
  | .exn msg =>
      { acc with
        errors := acc.errors ++ [msg]
        has_failures := true }
  | .task st err stats =>
      let acc1 :=
        match st with
        | .failed =>
            { acc with
              errors := acc.errors ++ [pyOrStr err "Generation failed"]
              has_failures := true }
        | .partFailure =>
            { acc with
              warnings := acc.warnings ++ [pyOrStr err "Partial failure"]
              has_failures := true }
        | _ => acc
      let sd := stats.getD {}
      let gen_stats : GenerationStats :=
        { total_records := sd.total_records, successful := sd.successful,
          failed := sd.failed, skipped := sd.skipped,
          duration_seconds := sd.duration_seconds, output_files := [],
          errors := sd.errors }
      { acc1 with combined_stats := acc1.combined_stats.merge gen_stats }

/-- The whole aggregation loop, starting from `GenerationStats()` and empty
message lists. -/
def aggregate_generation (rs : List GenResult) : GenAggregation :=
  rs.foldl aggregate_step {}

/-- The observable outcome of `process_document_request` from the generation
stage onwards.  `merge_ran` records whether stage 3 (the merge agent) was
executed at all. -/
structure ProcessingOutcome where
  status : String
  output_folder : Option String
  errors : List String
  warnings : List String
  stats : GenerationStats
  merge_ran : Bool
deriving Repr

/-- Embeds stages 2–4 of `OrchestratorAgent.process_document_request` after a
successful validation stage: aggregate the two generation results, short-
circuit to `FAILED` when `combined_stats.successful == 0 and
combined_stats.total_records > 0` (appending `"All document generation
failed"` and skipping the merge stage), otherwise run the merge agent —
whose `FAILED` status only appends a `"Merge failed: ..."` warning — and
finish with `PARTIAL_FAILURE` or `SUCCESS` according to `has_failures`.
`initErrors`/`initWarnings` are the messages already collected by the
validation stage; `merged_output_folder` is `document_config.get(
"merged_output_folder")`. -/
def process_document_pipeline (initErrors initWarnings : List String)
    (gen_results : List GenResult) (merge_status : TaskStatus)
    (merge_error : Option String) (merged_output_folder : Option String) :
    ProcessingOutcome :=
  let agg := aggregate_generation gen_results
  let errors := initErrors ++ agg.errors
  let warnings := initWarnings ++ agg.warnings
  if agg.combined_stats.successful = 0 ∧ agg.combined_stats.total_records > 0 then
    { status := "FAILED", output_folder := none,
      errors := errors ++ ["All document generation failed"],
      warnings := warnings, stats := agg.combined_stats, merge_ran := false }
  else if merge_status = .failed then
    { status := if agg.has_failures then "PARTIAL_FAILURE" else "SUCCESS",
      output_folder := none, errors := errors,
      warnings := warnings ++ ["Merge failed: " ++ pyStrOptional merge_error],
      stats := agg.combined_stats, merge_ran := true }
  else
    { status := if agg.has_failures then "PARTIAL_FAILURE" else "SUCCESS",
      output_folder := merged_output_folder, errors := errors,
      warnings := warnings, stats := agg.combined_stats, merge_ran := true }

/-- Executable model of Python's `str.startswith`. -/
def py_starts_with (s pat : String) : Bool :=
  s.data.take pat.data.length == pat.data

/-- Executable model of Python's `c in s` for a single character `c`. -/
def py_contains_char (s : String) (c : Char) : Bool :=
  s.data.contains c

/-- Loop of `py_replace`: scans left to right, replacing each (non
overlapping) occurrence of `pat`, like Python's `str.replace`.  The fuel is
the length of the scanned list, which bounds the number of steps. -/
def replace_go (pat rep : List Char) : Nat → List Char → List Char
  | _, [] => []
  | 0, s => s
  | fuel+1, c :: rest =>
      if pat ≠ [] ∧ (c :: rest).take pat.length = pat then
        rep ++ replace_go pat rep fuel ((c :: rest).drop pat.length)
      else
        c :: replace_go pat rep fuel rest

/-- Executable model of Python's `str.replace` (all occurrences, scanning
left to right).  For the empty pattern it returns the string unchanged; the
patterns used by the service (`"resolved_"`, `"_path"`) are non-empty. -/
def py_replace (s pat rep : String) : String :=
  String.mk (replace_go pat.data rep.data s.data.length s.data)

/-- A JSON-ish payload value as stored in an agent's `payload_mapping` and in
the outgoing payload: a string, a number, a boolean, or Python `None`. -/
inductive PVal where
  | str (s : String)
  | num (n : Int)
  | boolean (b : Bool)
  | null
deriving DecidableEq, Repr

/-- The fields of the `Agent` database row consulted by
`orchestration_service.process_query` (`timeout` is only used inside the
HTTP call and is omitted). -/
structure AgentRec where
  name : String
  endpoint : Option String := none
  payload_mapping : Option (List (String × PVal)) := none
deriving Repr

/-- The parsed routing JSON (`json.loads(routing_result["routing"])`), with
`dict.get` returning `none` for absent keys. -/
structure RoutingData where
  agent : Option String := none
  client_name : Option String := none
  wave_number : Option String := none
  subagent : Option String := none
deriving Repr

/-- The `routing_result` dictionary handed to `process_query` by the chat
service: its `type`, the user-facing `response` text, and the routing data
(already parsed; claims about malformed JSON are out of scope). -/
structure RoutingResult where
  type : String
  response : Option String := none
  routing : RoutingData := {}
deriving Repr

/-- Failure modes of `str.format`: a missing parameter raises `KeyError`
carrying the key; a malformed template (unmatched brace) raises
`ValueError`. -/
inductive FmtErr where
  | keyErr (key : String)
  | valueErr
deriving DecidableEq, Repr

/-- Dictionary lookup in the extracted-parameters dict. -/
def lookup_param (params : List (String × String)) (k : String) : Option String :=
  (params.find? (fun p => p.1 == k)).map (fun p => p.2)

/-- Character-level model of Python's `str.format(**params)` restricted to
plain named placeholders (no escaping or format specs, which the service's
templates do not use).  The second argument accumulates the characters of a
placeholder currently being read, in reverse. -/
def format_go (params : List (String × String)) :
    List Char → Option (List Char) → Except FmtErr (List Char)
  | [], none => .ok []
  | [], some _ => .error .valueErr
  | c :: rest, none =>
      if c = '\x7b' then format_go params rest (some [])
      else (format_go params rest none).map (fun t => c :: t)
  | c :: rest, some key =>
      if c = '\x7d' then
        match lookup_param params (String.mk key.reverse) with
        | none => .error (.keyErr (String.mk key.reverse))
        | some v => (format_go params rest none).map (fun t => v.data ++ t)
      else format_go params rest (some (c :: key))

/-- `value.format(**params)` on a whole string. -/
def format_str (params : List (String × String)) (s : String) :
    Except FmtErr String :=
  (format_go params s.data none).map (fun l => String.mk l)

/-- `value.replace("resolved_", "").replace("_path", "")` from
`_build_payload` / `_resolve_files`. -/
def strip_resolved (s : String) : String :=
  py_replace (py_replace s "resolved_" "") "_path" ""

/-- `resolved_files.get(file_type)` followed by storing into the payload:
an absent key or a `None` value both store Python `None`. -/
def resolved_lookup (resolved : List (String × Option String))
    (file_type : String) : PVal :=
  match resolved.find? (fun p => p.1 == file_type) with
  | some pr =>
      match pr.2 with
      | some p => .str p
      | none => .null
  | none => .null

/-- Python truthiness of an `Optional[str]`: `None` and `""` are falsy. -/
def py_truthy_str (o : Option String) : Bool :=
  match o with
  | some s => s != ""
  | none => false

/-- Python truthiness of an `Optional[dict]`: `None` and `{}` are falsy. -/
def py_truthy_mapping (m : Option (List (String × PVal))) : Bool :=
  match m with
  | some [] => false
  | some _ => true
  | none => false

/-- One entry of the `for key, value in agent.payload_mapping.items()` loop
of `_build_payload`, resolved in the source's priority order: non-string
values pass through; strings starting with `"resolved_"` pull from the
resolved-file map (missing entries become `None`); strings containing `"{"`
are template-substituted, a `KeyError` being caught and the literal template
kept (with a logged warning); all other strings are literals.  A `ValueError`
from a malformed template is not caught and propagates. -/
def build_entry (params : List (String × String))
    (resolved : List (String × Option String)) (kv : String × PVal) :
    Except FmtErr (String × PVal) :=
  match kv.2 with
  | .str s =>
      if py_starts_with s "resolved_" then
        .ok (kv.1, resolved_lookup resolved (strip_resolved s))
      else if py_contains_char s '\x7b' then
        match format_str params s with
        | .ok r => .ok (kv.1, .str r)
        | .error (.keyErr _) => .ok (kv.1, .str s)
        | .error .valueErr => .error .valueErr
      else .ok (kv.1, .str s)
  | v => .ok (kv.1, v)

/-- Embeds `_build_payload` of `orchestration_service.py`.  A falsy
`payload_mapping` (absent or empty) returns the params dict itself as the
payload; otherwise each mapping entry is resolved by `build_entry`. -/
def build_payload (mapping : Option (List (String × PVal)))
    (params : List (String × String))
    (resolved : List (String × Option String)) :
    Except FmtErr (List (String × PVal)) :=
  match mapping with
  | none => .ok (params.map (fun p => (p.1, PVal.str p.2)))
  | some [] => .ok (params.map (fun p => (p.1, PVal.str p.2)))
  | some m => m.mapM (build_entry params resolved)

/-- Embeds `_resolve_files` of `orchestration_service.py` as written: the
line that should initialise the local `patterns` dict was absorbed into the
comment `"# Extract file patterns from payload mappingpatterns = {}"`, so
`patterns` is an unbound name and the body raises `NameError` on every run
that reaches it; the enclosing `except` logs a warning and returns `{}`.
(When the payload mapping is falsy the first guard returns `{}` directly.)
Hence the function returns the empty dict on every input, and
`FileResolver.resolve_files` / `validate_resolved_files` are never reached
from this service. -/
def resolve_files (agent : AgentRec) (params : List (String × String))
    (base_path : String) : List (String × Option String) :=
  []

/-- Side effects performed by a `process_query` run: whether the agent table
was queried, whether `_build_payload` was reached, and — when the HTTP POST
to the agent endpoint was made — the payload it was sent. -/
structure Effects where
  db_lookup : Bool := false
  payload_built : Bool := false
  http_payload : Option (List (String × PVal)) := none
deriving DecidableEq, Repr

/-- The `result` dictionary returned by `process_query` (the echoed
`routing_decision` is omitted; `execution_result` abstracts the remote
response as the payload the endpoint was called with). -/
structure QueryResult where
  status : String
  message : Option String := none
  errors : List String := []
  file_resolution : Option (List (String × Option String)) := none
  execution_result : Option (List (String × PVal)) := none
deriving DecidableEq, Repr

/-- The routing-result types that `process_query` passes back to the user
without executing anything. -/
def awaiting_types : List String :=
  ["clarification", "confirmation", "agent_inquiry", "invalid_query"]

/-- Embeds `orchestration_service.process_query`: pass through the four
non-routing classifier outputs as `AWAITING_USER_INPUT`; fail on an
unexpected type, a missing agent name, an unknown agent, or a missing
endpoint; otherwise resolve files (when the mapping and the context base
path are truthy), build the payload, and POST it to the agent endpoint
(`base_path` collapses `context.get("base_path") if context else None`).
An uncaught exception from the payload build lands in the outer handler as
status `FAILED` with an `"Unexpected error: ..."` entry. -/
def process_query (db : List AgentRec) (rr : RoutingResult)
    (base_path : Option String) : QueryResult × Effects :=
  if rr.type ∈ awaiting_types then
    ({ status := "AWAITING_USER_INPUT", message := some (rr.response.getD "") }, {})
  else if rr.type ≠ "routing" then
    ({ status := "FAILED", errors := ["Unexpected response type: " ++ rr.type] }, {})
  else
    match rr.routing.agent with
    | none => ({ status := "FAILED", errors := ["No agent specified in routing"] }, {})
    | some agent_name =>
      if agent_name = "" then
        ({ status := "FAILED", errors := ["No agent specified in routing"] }, {})
      else
        let params := [("client_name", rr.routing.client_name.getD ""),
          ("wave_number", rr.routing.wave_number.getD ""),
          ("agent_name", agent_name),
          ("subagent_name", rr.routing.subagent.getD "")]
        match db.find? (fun a => a.name == agent_name) with
        | none =>
            ({ status := "FAILED",
               errors := ["Agent not found in database: " ++ agent_name] },
             { db_lookup := true })
        | some agent =>
            if py_truthy_str agent.endpoint = false then
              ({ status := "FAILED",
                 errors := ["Agent '" ++ agent_name ++
                   "' does not have an endpoint configured. Cannot execute."] },
               { db_lookup := true })
            else
              let resolving := py_truthy_mapping agent.payload_mapping &&
                py_truthy_str base_path
              let resolved :=
                if resolving then resolve_files agent params (base_path.getD "")
                else []
              let fileres := if resolving then some resolved else none
              match build_payload agent.payload_mapping params resolved with
              | .error _ =>
                  ({ status := "FAILED",
                     errors := ["Unexpected error: format error"],
                     file_resolution := fileres },
                   { db_lookup := true, payload_built := true })
              | .ok payload =>
                  ({ status := "SUCCESS", file_resolution := fileres,
                     execution_result := some payload },
                   { db_lookup := true, payload_built := true,
                     http_payload := some payload })

/-- Concrete registration for the C3 run: an agent whose payload mapping
requires the resolved Excel file. -/
def opn_agent_rec : AgentRec :=
  { name := "opn_agent"
    endpoint := some "http://opn:8000/process"
    payload_mapping := some [("excel_path", .str "resolved_excel_path")] }

/-- Concrete routing decision for the C3 run. -/
def opn_routing : RoutingResult :=
  { type := "routing"
    routing := { agent := some "opn_agent"
                 client_name := some "CEP"
                 wave_number := some "6" } }

/-- Concrete registration for the C6 run: a payload mapping with a template
whose placeholder is not among the extracted parameters. -/
def doc_agent_rec : AgentRec :=
  { name := "doc_agent"
    endpoint := some "http://doc:8000/run"
    payload_mapping := some [("greeting", .str "Hello \x7bmissing\x7d")] }

/-- Concrete routing decision for the C6 run. -/
def doc_routing : RoutingResult :=
  { type := "routing"
    routing := { agent := some "doc_agent" } }

/-- Digits of a positive number, most significant first, as produced by
Python's `str(int)` / the f-string `f"{base}_{counter}{ext}"`.  Structurally
recursive on a fuel bounded by the number itself. -/
def decimal_go : Nat → Nat → List Char
  | _, 0 => []
  | 0, _ => []
  | fuel+1, n+1 => decimal_go fuel ((n + 1) / 10) ++ [Nat.digitChar ((n + 1) % 10)]

/-- Decimal rendering of a natural number, extensionally Python's
`str(int)` for non-negative ints. -/
def decimal_str (n : Nat) : String :=
  if n = 0 then "0" else String.mk (decimal_go n n)

/-- Numeric value of a digit string; left inverse of `decimal_go` used to
prove injectivity of `decimal_str`. -/
def digits_val (l : List Char) : Nat :=
  l.foldl (fun acc c => acc * 10 + (c.toNat - 48)) 0

/-- `os.path.join(a, b)` for a relative second component. -/
def join_path (a b : String) : String :=
  a ++ "/" ++ b

/-- The destination filenames tried by the `while os.path.exists` loop of
`safe_copy`, in order: first `base + ext`, then `f"{base}_{counter}{ext}"`
for `counter = 1, 2, ...`. -/
def cand_name (base ext : String) : Nat → String
  | 0 => base ++ ext
  | n+1 => base ++ "_" ++ decimal_str (n + 1) ++ ext

/-- The `while os.path.exists(final_path)` loop of `safe_copy`: starting
from candidate `k` (candidate 0 is `base + ext`, candidate `c ≥ 1` is
`f"{base}_{c}{ext}"`), returns the first candidate path not present in the
file system `fs`.  Structurally recursive on a fuel; `safe_copy` passes
`fs.length + 1`, which the pigeonhole lemma below shows is always enough. -/
def find_free_name (fs : List String) (dest base ext : String) :
    Nat → Nat → String
  | 0, k => join_path dest (cand_name base ext k)
  | fuel+1, k =>
      if join_path dest (cand_name base ext k) ∈ fs then
        find_free_name fs dest base ext fuel (k + 1)
      else join_path dest (cand_name base ext k)

/-- Embeds `safe_copy` of `file_utils.py` on a file system modelled as the
list of existing file paths.  The source file's name is given already split
by `os.path.splitext(os.path.basename(src_path))` into `(base, ext)`; the
source-existence check and `os.makedirs` are outside the model (callers copy
files just enumerated by `os.walk`, and directories carry no state here).
With `overwrite=True` the destination `dest_folder/base+ext` is written
directly (`shutil.copy2` replaces an existing file); otherwise the first
free candidate name is used.  Returns the new file system and the path
written. -/
def safe_copy (fs : List String) (dest_folder base ext : String)
    (overwrite : Bool) : List String × String :=
  let final_path :=
    if overwrite then join_path dest_folder (base ++ ext)
    else find_free_name fs dest_folder base ext (fs.length + 1) 0
  (final_path :: fs, final_path)

/-- One file discovered by the `os.walk` traversal in `merge_folders`:
its directory relative to the walked root (`os.path.relpath(root,
root_folder)`), and its name split into base and extension. -/
structure SrcEntry where
  rel_dir : String
  base : String
  ext : String
deriving DecidableEq, Repr

/-- The default `ALLOWED_EXTENSIONS` of `file_utils.py`. -/
def allowed_extensions : List String :=
  [".xls", ".xlsx", ".doc", ".docx", ".pdf"]

/-- Embeds `is_allowed_file` applied to an already-split extension:
`os.path.splitext(filename)[1].lower() in extensions`. -/
def is_allowed_file (ext : String) (allowed : List String) : Bool :=
  allowed.contains (String.mk (ext.data.map Char.toLower))

/-- The nested copy loop of `merge_folders` over the walked entries of the
source folders: allowed files are copied with `safe_copy` (default
`overwrite=False`) into `output_folder/rel_dir` and counted; other files are
skipped. -/
def merge_folders_go (allowed : List String) (output_folder : String) :
    List SrcEntry → List String → Nat → List String × Nat
  | [], fs, count => (fs, count)
  | e :: rest, fs, count =>
      if is_allowed_file e.ext allowed then
        let r := safe_copy fs (join_path output_folder e.rel_dir) e.base e.ext false
        merge_folders_go allowed output_folder rest r.1 (count + 1)
      else merge_folders_go allowed output_folder rest fs count

/-- Embeds `merge_folders` of `file_utils.py`: walks `folder1` then
`folder2` (each given as its `os.walk` listing), copying every allowed file
into the output folder while preserving the relative subtree, and returns
the resulting file system together with `copied_count`. -/
def merge_folders (fs : List String) (folder1 folder2 : List SrcEntry)
    (output_folder : String) (allowed : List String) : List String × Nat :=
  merge_folders_go allowed output_folder (folder1 ++ folder2) fs 0

/-- C1, counterexample. The claim asserts `GenerationStats.merge` is
commutative.  It is not: the list fields concatenate in argument order, so two
stats values (with non-negative counts) whose `output_files` differ merge to
different values in the two orders. -/
theorem merge_not_commutative :
    GenerationStats.merge { output_files := ["a.docx"] } { output_files := ["b.docx"] } ≠
      GenerationStats.merge { output_files := ["b.docx"] } { output_files := ["a.docx"] } := by
  intro h
  have h2 := congrArg GenerationStats.output_files h
  simp [GenerationStats.merge] at h2

/-- C1, amended. `GenerationStats.merge` is associative, and it is commutative
on every numeric field (counts and duration); on the two list fields it is
commutative only up to permutation, the concatenation order being swapped. -/
theorem merge_assoc_and_numeric_comm (A B C : GenerationStats) :
    (A.merge B).merge C = A.merge (B.merge C) ∧
    (A.merge B).total_records = (B.merge A).total_records ∧
    (A.merge B).successful = (B.merge A).successful ∧
    (A.merge B).failed = (B.merge A).failed ∧
    (A.merge B).skipped = (B.merge A).skipped ∧
    (A.merge B).duration_seconds = (B.merge A).duration_seconds ∧
    (A.merge B).output_files.Perm (B.merge A).output_files ∧
    (A.merge B).errors.Perm (B.merge A).errors := by
  refine ⟨?_, ?_, ?_, ?_, ?_, ?_, ?_, ?_⟩
  · simp [GenerationStats.merge, add_assoc]
  · simp [GenerationStats.merge, add_comm]
  · simp [GenerationStats.merge, add_comm]
  · simp [GenerationStats.merge, add_comm]
  · simp [GenerationStats.merge, add_comm]
  · simp [GenerationStats.merge, add_comm]
  · exact List.perm_append_comm
  · exact List.perm_append_comm

/-- C10. `success_rate` is a total function of the stats value: it returns `0`
when `total_records = 0` (the division is guarded and never performed on a zero
denominator), and `successful * 100 / total_records` otherwise. -/
theorem success_rate_total (s : GenerationStats) :
    (s.total_records = 0 → s.success_rate = 0) ∧
    (s.total_records ≠ 0 →
      s.success_rate = (s.successful : Rat) * 100 / (s.total_records : Rat)) := by
  constructor
  · intro h
    simp [GenerationStats.success_rate, h]
  · intro h
    simp only [GenerationStats.success_rate, if_neg h]
    ring

/-- C10, witness: `success_rate` evaluated on an empty batch and on a batch of
100 records with 95 successes. -/
theorem success_rate_total_witness :
    GenerationStats.success_rate { total_records := 0, successful := 7 } = 0 ∧
    GenerationStats.success_rate { total_records := 100, successful := 95 } = 95 := by
  constructor
  · exact (success_rate_total { total_records := 0, successful := 7 }).1 rfl
  · have h := (success_rate_total { total_records := 100, successful := 95 }).2 (by decide)
    rw [h]
    norm_num

lemma execute_with_retry_go_invariant (cfg : AgentConfig) (exec : Nat → ExecStep) :
    ∀ (fuel : Nat) (t : DocumentTask) (lastError : Option String) (delays : List Rat),
      t.retry_count ≤ t.max_retries →
      ((execute_with_retry_go cfg exec fuel t lastError delays).1.retry_count ≤ t.max_retries ∧
        (execute_with_retry_go cfg exec fuel t lastError delays).1.max_retries = t.max_retries) := by
  intro fuel
  induction fuel with
  | zero =>
      intro t lastError delays h
      exact ⟨h, rfl⟩
  | succ fuel ih =>
      intro t lastError delays h
      by_cases hg : t.can_retry
      · have hlt : t.retry_count < t.max_retries := by
          simpa [DocumentTask.can_retry] using hg
        cases hstep : exec t.retry_count with
        | ok st err =>
            cases st with
            | completed => simp [execute_with_retry_go, hg, hstep]; exact h
            | failed =>
                have := ih (DocumentTask.increment_retry
                    { t with status := .failed, error_message := err }) lastError
                  (delays ++ [calculate_retry_delay cfg
                    (DocumentTask.increment_retry
                      { t with status := .failed, error_message := err }).retry_count])
                  (by simpa [DocumentTask.increment_retry] using hlt)
                simpa [execute_with_retry_go, hg, hstep, DocumentTask.increment_retry] using this
            | pending => simp [execute_with_retry_go, hg, hstep]; exact h
            | in_progress => simp [execute_with_retry_go, hg, hstep]; exact h
            | partFailure => simp [execute_with_retry_go, hg, hstep]; exact h
            | cancelled => simp [execute_with_retry_go, hg, hstep]; exact h
        | exn msg =>
            have := ih t.increment_retry (some msg)
              (delays ++ [calculate_retry_delay cfg t.increment_retry.retry_count])
              (by simpa [DocumentTask.increment_retry] using hlt)
            simpa [execute_with_retry_go, hg, hstep, DocumentTask.increment_retry] using this
      · have hg2 : t.can_retry = false := by
          simpa using hg
        simp [execute_with_retry_go, hg2, DocumentTask.mark_failed]
        exact h

lemma execute_with_retry_go_failed_message (cfg : AgentConfig) (exec : Nat → ExecStep) :
    ∀ (fuel : Nat) (t : DocumentTask) (lastError : Option String) (delays : List Rat),
      (∀ s, lastError = some s → s ≠ "") →
      (∀ i m, exec i = .exn m → m ≠ "") →
      ((execute_with_retry_go cfg exec fuel t lastError delays).1.status = .failed →
        ∃ s, (execute_with_retry_go cfg exec fuel t lastError delays).1.error_message = some s ∧
          s ≠ "") := by
  intro fuel
  induction fuel with
  | zero =>
      intro t lastError delays hle hexn _
      cases lastError with
      | none =>
          refine ⟨"Max retries exceeded", ?_, by decide⟩
          simp [execute_with_retry_go, DocumentTask.mark_failed]
      | some s =>
          refine ⟨s, ?_, hle s rfl⟩
          simp [execute_with_retry_go, DocumentTask.mark_failed]
  | succ fuel ih =>
      intro t lastError delays hle hexn
      by_cases hg : t.can_retry
      · cases hstep : exec t.retry_count with
        | ok st err =>
            cases st with
            | completed => simp [execute_with_retry_go, hg, hstep]
            | failed =>
                intro hf
                have := ih (DocumentTask.increment_retry
                    { t with status := .failed, error_message := err }) lastError
                  (delays ++ [calculate_retry_delay cfg
                    (DocumentTask.increment_retry
                      { t with status := .failed, error_message := err }).retry_count])
                  hle hexn
                simp only [execute_with_retry_go, hg, hstep, if_true] at hf ⊢
                exact this hf
            | pending => simp [execute_with_retry_go, hg, hstep]
            | in_progress => simp [execute_with_retry_go, hg, hstep]
            | partFailure => simp [execute_with_retry_go, hg, hstep]
            | cancelled => simp [execute_with_retry_go, hg, hstep]
        | exn msg =>
            intro hf
            have hmsg : ∀ s, (some msg : Option String) = some s → s ≠ "" := by
              intro s hs
              cases hs
              exact hexn t.retry_count msg hstep
            have := ih t.increment_retry (some msg)
              (delays ++ [calculate_retry_delay cfg t.increment_retry.retry_count])
              hmsg hexn
            simp only [execute_with_retry_go, hg, hstep, if_true] at hf ⊢
            exact this hf
      · intro hf
        have hg2 : t.can_retry = false := by
          simpa using hg
        cases lastError with
        | none =>
            refine ⟨"Max retries exceeded", ?_, by decide⟩
            simp [execute_with_retry_go, hg2, DocumentTask.mark_failed]
        | some s =>
            refine ⟨s, ?_, hle s rfl⟩
            simp [execute_with_retry_go, hg2, DocumentTask.mark_failed]

/-- C2, amended.  Along any run of `execute_with_retry` the retry counter
never exceeds `max_retries` (it is bumped only under the `can_retry` guard),
and a task returned with status `Failed` always carries an error message,
namely the `str` of the last exception when one was raised and
`"Max retries exceeded"` otherwise.  That message is non-empty provided every
exception raised by the attempts has a non-empty `str` — the original claim's
unconditional non-emptiness fails for exceptions whose `str` is empty, see
the counterexample. -/
theorem execute_with_retry_invariant (cfg : AgentConfig) (exec : Nat → ExecStep)
    (t : DocumentTask) (h : t.retry_count ≤ t.max_retries)
    (hexn : ∀ i m, exec i = .exn m → m ≠ "") :
    (execute_with_retry cfg exec t).1.retry_count ≤ t.max_retries ∧
    (execute_with_retry cfg exec t).1.max_retries = t.max_retries ∧
    ((execute_with_retry cfg exec t).1.status = .failed →
      ∃ s, (execute_with_retry cfg exec t).1.error_message = some s ∧ s ≠ "") := by
  have h1 := execute_with_retry_go_invariant cfg exec
    (t.max_retries - t.retry_count + 1) t none [] h
  have h2 := execute_with_retry_go_failed_message cfg exec
    (t.max_retries - t.retry_count + 1) t none []
    (by intro s hs; cases hs) hexn
  exact ⟨h1.1, h1.2, h2⟩

/-- C2, witness: a task with the default retry budget of 3 whose attempts all
raise `RuntimeError("boom")` ends with `retry_count ≤ 3`, status `Failed` and
the non-empty message `"boom"`. -/
theorem execute_with_retry_invariant_witness :
    (execute_with_retry {} (fun _ => .exn "boom") {}).1.retry_count ≤
      (3 : Nat) ∧
    (execute_with_retry {} (fun _ => .exn "boom") {}).1.max_retries = 3 ∧
    ((execute_with_retry {} (fun _ => .exn "boom") {}).1.status = .failed →
      ∃ s, (execute_with_retry {} (fun _ => .exn "boom") {}).1.error_message = some s ∧
        s ≠ "") :=
  execute_with_retry_invariant {} (fun _ => .exn "boom") {} (by decide)
    (fun i m hm => by
      cases hm
      decide)

/-- C2, counterexample.  The claim asserts that after retry exhaustion the
task's error message is always non-empty.  If every attempt raises an
exception whose `str` is empty (e.g. `raise ValueError()`), the exhaustion
branch stores `str(last_error) = ""`: the returned task is `Failed` with an
empty message. -/
theorem execute_with_retry_empty_message :
    (execute_with_retry {} (fun _ => .exn "") { max_retries := 1 }).1.status = .failed ∧
    (execute_with_retry {} (fun _ => .exn "") { max_retries := 1 }).1.error_message =
      some "" := by
  constructor
  · rfl
  · rfl

lemma execute_with_retry_go_count_mono (cfg : AgentConfig) (exec : Nat → ExecStep) :
    ∀ (fuel : Nat) (t : DocumentTask) (lastError : Option String) (delays : List Rat),
      t.retry_count ≤ (execute_with_retry_go cfg exec fuel t lastError delays).1.retry_count := by
  intro fuel
  induction fuel with
  | zero =>
      intro t lastError delays
      exact Nat.le_refl _
  | succ fuel ih =>
      intro t lastError delays
      by_cases hg : t.can_retry
      · cases hstep : exec t.retry_count with
        | ok st err =>
            cases st with
            | completed => simp [execute_with_retry_go, hg, hstep]
            | failed =>
                have := ih (DocumentTask.increment_retry
                    { t with status := .failed, error_message := err }) lastError
                  (delays ++ [calculate_retry_delay cfg
                    (DocumentTask.increment_retry
                      { t with status := .failed, error_message := err }).retry_count])
                simp only [execute_with_retry_go, hg, hstep, if_true]
                simp only [DocumentTask.increment_retry] at this ⊢
                omega
            | pending => simp [execute_with_retry_go, hg, hstep]
            | in_progress => simp [execute_with_retry_go, hg, hstep]
            | partFailure => simp [execute_with_retry_go, hg, hstep]
            | cancelled => simp [execute_with_retry_go, hg, hstep]
        | exn msg =>
            have := ih t.increment_retry (some msg)
              (delays ++ [calculate_retry_delay cfg t.increment_retry.retry_count])
            simp only [execute_with_retry_go, hg, hstep, if_true]
            simp only [DocumentTask.increment_retry] at this ⊢
            omega
      · have hg2 : t.can_retry = false := by
          simpa using hg
        simp [execute_with_retry_go, hg2, DocumentTask.mark_failed]

lemma execute_with_retry_go_delays (cfg : AgentConfig) (exec : Nat → ExecStep) :
    ∀ (fuel : Nat) (t : DocumentTask) (lastError : Option String) (delays : List Rat),
      (execute_with_retry_go cfg exec fuel t lastError delays).2 =
        delays ++
          (List.range
            ((execute_with_retry_go cfg exec fuel t lastError delays).1.retry_count -
              t.retry_count)).map
            (fun i => calculate_retry_delay cfg (t.retry_count + i + 1)) := by
  intro fuel
  induction fuel with
  | zero =>
      intro t lastError delays
      simp [execute_with_retry_go, DocumentTask.mark_failed]
  | succ fuel ih =>
      intro t lastError delays
      have hfun : ∀ n : Nat,
          ((fun i => calculate_retry_delay cfg (n + i + 1)) ∘ Nat.succ) =
            (fun i => calculate_retry_delay cfg (n + 1 + i + 1)) := by
        intro n
        funext i
        simp only [Function.comp]
        congr 1
        omega
      by_cases hg : t.can_retry
      · cases hstep : exec t.retry_count with
        | ok st err =>
            cases st with
            | completed => simp [execute_with_retry_go, hg, hstep]
            | failed =>
                set t1 := DocumentTask.increment_retry
                  { t with status := .failed, error_message := err } with ht1
                have hrc : t1.retry_count = t.retry_count + 1 := by
                  simp [ht1, DocumentTask.increment_retry]
                have hmono := execute_with_retry_go_count_mono cfg exec fuel t1 lastError
                  (delays ++ [calculate_retry_delay cfg t1.retry_count])
                have hrec := ih t1 lastError
                  (delays ++ [calculate_retry_delay cfg t1.retry_count])
                simp only [execute_with_retry_go, hg, hstep, if_true]
                rw [hrec, hrc] at *
                set R := (execute_with_retry_go cfg exec fuel t1 lastError
                  (delays ++ [calculate_retry_delay cfg (t.retry_count + 1)])).1.retry_count
                  with hR
                have hsplit : R - t.retry_count = (R - (t.retry_count + 1)) + 1 := by omega
                rw [hsplit, List.range_succ_eq_map]
                simp only [List.map_cons, List.map_map, Nat.add_zero, List.append_assoc,
                  List.singleton_append, hfun]
            | pending => simp [execute_with_retry_go, hg, hstep]
            | in_progress => simp [execute_with_retry_go, hg, hstep]
            | partFailure => simp [execute_with_retry_go, hg, hstep]
            | cancelled => simp [execute_with_retry_go, hg, hstep]
        | exn msg =>
            set t1 := t.increment_retry with ht1
            have hrc : t1.retry_count = t.retry_count + 1 := by
              simp [ht1, DocumentTask.increment_retry]
            have hmono := execute_with_retry_go_count_mono cfg exec fuel t1 (some msg)
              (delays ++ [calculate_retry_delay cfg t1.retry_count])
            have hrec := ih t1 (some msg)
              (delays ++ [calculate_retry_delay cfg t1.retry_count])
            simp only [execute_with_retry_go, hg, hstep, if_true]
            rw [hrec, hrc] at *
            set R := (execute_with_retry_go cfg exec fuel t1 (some msg)
              (delays ++ [calculate_retry_delay cfg (t.retry_count + 1)])).1.retry_count
              with hR
            have hsplit : R - t.retry_count = (R - (t.retry_count + 1)) + 1 := by omega
            rw [hsplit, List.range_succ_eq_map]
            simp only [List.map_cons, List.map_map, Nat.add_zero, List.append_assoc,
              List.singleton_append, hfun]
      · have hg2 : t.can_retry = false := by
          simpa using hg
        simp [execute_with_retry_go, hg2, DocumentTask.mark_failed]

/-- C4.  The backoff delays slept by `execute_with_retry` are exactly
`retry_delay_seconds * retry_backoff_multiplier ^ (n - 1)` where `n` is the
retry counter *after* the increment that precedes the sleep (the i-th slept
delay, 0-based, uses `n = retry_count₀ + i + 1`); in particular with
`retry_delay_seconds = 1.0` and `retry_backoff_multiplier = 2.0` the delays
for retries 1, 2, 3 are exactly `1.0, 2.0, 4.0`. -/
theorem retry_backoff_delays (cfg : AgentConfig) (exec : Nat → ExecStep)
    (t : DocumentTask) :
    (execute_with_retry cfg exec t).2 =
      (List.range ((execute_with_retry cfg exec t).1.retry_count - t.retry_count)).map
        (fun i => calculate_retry_delay cfg (t.retry_count + i + 1)) ∧
    (execute_with_retry { retry_delay_seconds := 1, retry_backoff_multiplier := 2 }
        (fun _ => .exn "boom") {}).2 = [1, 2, 4] := by
  constructor
  · have h := execute_with_retry_go_delays cfg exec
      (t.max_retries - t.retry_count + 1) t none []
    simpa [execute_with_retry] using h
  · norm_num [execute_with_retry, execute_with_retry_go, DocumentTask.can_retry,
      DocumentTask.increment_retry, calculate_retry_delay]

/-- C5.  The pipeline ends in overall status `FAILED` after the generation
stage exactly when the merged statistics satisfy `successful = 0` and
`total_records > 0`; in that case the error `"All document generation
failed"` is appended and the merge stage is skipped.  In particular two
generation units that both report `total_records = 0` never trigger this
failure. -/
theorem all_generation_failed_short_circuit (initE initW : List String)
    (gen_results : List GenResult) (ms : TaskStatus) (me : Option String)
    (mof : Option String) :
    ((process_document_pipeline initE initW gen_results ms me mof).status = "FAILED" ↔
      ((aggregate_generation gen_results).combined_stats.successful = 0 ∧
        (aggregate_generation gen_results).combined_stats.total_records > 0)) ∧
    (((aggregate_generation gen_results).combined_stats.successful = 0 ∧
        (aggregate_generation gen_results).combined_stats.total_records > 0) →
      (process_document_pipeline initE initW gen_results ms me mof).merge_ran = false ∧
      "All document generation failed" ∈
        (process_document_pipeline initE initW gen_results ms me mof).errors) ∧
    (∀ (st1 st2 : TaskStatus) (e1 e2 : Option String) (sd1 sd2 : GenStatsData),
      sd1.total_records = 0 → sd2.total_records = 0 →
      (process_document_pipeline initE initW
        [.task st1 e1 (some sd1), .task st2 e2 (some sd2)] ms me mof).status ≠
        "FAILED") := by
  refine ⟨?_, ?_, ?_⟩
  · by_cases hc : (aggregate_generation gen_results).combined_stats.successful = 0 ∧
        (aggregate_generation gen_results).combined_stats.total_records > 0
    · simp [process_document_pipeline, hc]
    · by_cases hm : ms = TaskStatus.failed
      · simp only [process_document_pipeline, if_neg hc, hm, if_true]
        constructor
        · intro h
          by_cases hf : (aggregate_generation gen_results).has_failures
          · simp [hf] at h
          · simp [hf] at h
        · intro h
          exact absurd h hc
      · simp only [process_document_pipeline, if_neg hc, if_neg hm]
        constructor
        · intro h
          by_cases hf : (aggregate_generation gen_results).has_failures
          · simp [hf] at h
          · simp [hf] at h
        · intro h
          exact absurd h hc
  · intro hc
    constructor
    · simp [process_document_pipeline, hc]
    · simp [process_document_pipeline, hc]
  · intro st1 st2 e1 e2 sd1 sd2 h1 h2
    have htot : (aggregate_generation
        [.task st1 e1 (some sd1), .task st2 e2 (some sd2)]).combined_stats.total_records =
        0 := by
      cases st1 <;> cases st2 <;>
        simp [aggregate_generation, aggregate_step, GenerationStats.merge, h1, h2]
    intro hf
    by_cases hc : (aggregate_generation
        [.task st1 e1 (some sd1), .task st2 e2 (some sd2)]).combined_stats.successful = 0 ∧
        (aggregate_generation
          [.task st1 e1 (some sd1), .task st2 e2 (some sd2)]).combined_stats.total_records > 0
    · rw [htot] at hc
      exact absurd hc.2 (by norm_num)
    · by_cases hm : ms = TaskStatus.failed
      · simp only [process_document_pipeline, if_neg hc, hm, if_true] at hf
        by_cases hfl : (aggregate_generation
            [.task st1 e1 (some sd1), .task st2 e2 (some sd2)]).has_failures
        · simp [hfl] at hf
        · simp [hfl] at hf
      · simp only [process_document_pipeline, if_neg hc, if_neg hm] at hf
        by_cases hfl : (aggregate_generation
            [.task st1 e1 (some sd1), .task st2 e2 (some sd2)]).has_failures
        · simp [hfl] at hf
        · simp [hfl] at hf

/-- C5, witness: a single generation unit with 2 records and 0 successes
triggers the short-circuit (no merge, error appended); two completed units
with 0 records do not produce `FAILED`. -/
theorem all_generation_failed_short_circuit_witness :
    ((process_document_pipeline [] []
        [.task .failed (some "boom") (some { total_records := 2, failed := 2 })]
        .completed none (some "out/merged")).merge_ran = false ∧
      "All document generation failed" ∈
        (process_document_pipeline [] []
          [.task .failed (some "boom") (some { total_records := 2, failed := 2 })]
          .completed none (some "out/merged")).errors) ∧
    (process_document_pipeline [] []
        [.task .completed none (some {}), .task .completed none (some {})]
        .completed none (some "out/merged")).status ≠ "FAILED" := by
  constructor
  · exact (all_generation_failed_short_circuit [] []
      [.task .failed (some "boom") (some { total_records := 2, failed := 2 })]
      .completed none (some "out/merged")).2.1 (by decide)
  · exact (all_generation_failed_short_circuit [] [] [] .completed none
      (some "out/merged")).2.2 .completed .completed none none {} {} rfl rfl

/-- C8.  When the merge stage's task comes back `FAILED` (and the generation
short-circuit did not fire), the pipeline appends `"Merge failed: ..."` to
the *warnings*, leaves the error list untouched, never reports overall
`FAILED` on that account — the status is still decided solely by
`has_failures`, so it is `SUCCESS` when neither generation unit failed or
partially failed — and the aggregated generation statistics (including each
unit's error list) are carried into the outcome unchanged. -/
theorem merge_failure_downgraded (initE initW : List String)
    (gen_results : List GenResult) (me : Option String) (mof : Option String)
    (hnot : ¬ ((aggregate_generation gen_results).combined_stats.successful = 0 ∧
      (aggregate_generation gen_results).combined_stats.total_records > 0)) :
    (process_document_pipeline initE initW gen_results .failed me mof).warnings =
      initW ++ (aggregate_generation gen_results).warnings ++
        ["Merge failed: " ++ pyStrOptional me] ∧
    (process_document_pipeline initE initW gen_results .failed me mof).errors =
      initE ++ (aggregate_generation gen_results).errors ∧
    (process_document_pipeline initE initW gen_results .failed me mof).status ≠
      "FAILED" ∧
    ((aggregate_generation gen_results).has_failures = false →
      (process_document_pipeline initE initW gen_results .failed me mof).status =
        "SUCCESS") ∧
    (process_document_pipeline initE initW gen_results .failed me mof).stats =
      (aggregate_generation gen_results).combined_stats ∧
    (process_document_pipeline initE initW gen_results .failed me mof).merge_ran =
      true := by
  refine ⟨?_, ?_, ?_, ?_, ?_, ?_⟩
  · simp [process_document_pipeline, hnot]
  · simp [process_document_pipeline, hnot]
  · by_cases hf : (aggregate_generation gen_results).has_failures
    · simp [process_document_pipeline, hnot, hf]
    · simp [process_document_pipeline, hnot, hf]
  · intro hf
    simp [process_document_pipeline, hnot, hf]
  · simp [process_document_pipeline, hnot]
  · simp [process_document_pipeline, hnot]

/-- C8, witness: two clean generation units (3 + 2 records, all successful)
followed by a merge-stage failure with message `"disk full"`: the outcome is
`SUCCESS` with the merge warning recorded and no errors. -/
theorem merge_failure_downgraded_witness :
    (process_document_pipeline [] []
        [.task .completed none (some { total_records := 3, successful := 3 }),
          .task .completed none (some { total_records := 2, successful := 2 })]
        .failed (some "disk full") (some "out/merged")).warnings =
      ["Merge failed: disk full"] ∧
    (process_document_pipeline [] []
        [.task .completed none (some { total_records := 3, successful := 3 }),
          .task .completed none (some { total_records := 2, successful := 2 })]
        .failed (some "disk full") (some "out/merged")).errors = [] ∧
    (process_document_pipeline [] []
        [.task .completed none (some { total_records := 3, successful := 3 }),
          .task .completed none (some { total_records := 2, successful := 2 })]
        .failed (some "disk full") (some "out/merged")).status = "SUCCESS" := by
  have h := merge_failure_downgraded [] []
    [.task .completed none (some { total_records := 3, successful := 3 }),
      .task .completed none (some { total_records := 2, successful := 2 })]
    (some "disk full") (some "out/merged") (by decide)
  refine ⟨?_, ?_, ?_⟩
  · rw [h.1]
    decide
  · rw [h.2.1]
    decide
  · exact h.2.2.2.1 (by decide)

/-- C7.  For any routing result whose `type` is `clarification`,
`confirmation`, `agent_inquiry` or `invalid_query`, `process_query` returns
status `AWAITING_USER_INPUT` with the classifier's `response` text as the
message, and performs no agent lookup, no payload build and no HTTP POST
(the effects record stays at its all-false default). -/
theorem awaiting_user_input_no_dispatch (db : List AgentRec)
    (rr : RoutingResult) (base_path : Option String)
    (h : rr.type ∈ awaiting_types) :
    process_query db rr base_path =
      ({ status := "AWAITING_USER_INPUT"
         message := some (rr.response.getD "") },
        {}) := by
  simp [process_query, h]

/-- C7, witness: a `clarification` routing result with prompt
`"Which wave?"` is passed back verbatim with no effects. -/
theorem awaiting_user_input_no_dispatch_witness :
    process_query [] { type := "clarification", response := some "Which wave?" }
        none =
      ({ status := "AWAITING_USER_INPUT", message := some "Which wave?" }, {}) :=
  awaiting_user_input_no_dispatch []
    { type := "clarification", response := some "Which wave?" } none (by decide)

/-- C3.  A routed request for an agent whose registration maps
`excel_path` to the file reference `resolved_excel_path`, with a base path
configured and no matching file (so the pattern would resolve to `None`):
because `_resolve_files` always returns `{}` (its `patterns = {}` line was
absorbed into a comment, raising `NameError` which the handler swallows) and
`process_query` never validates the resolution, the request is *not* failed —
the HTTP POST is made with `excel_path = None` in the payload and the result
reports `SUCCESS`.  This contradicts the specified fail-before-dispatch
behaviour (which the predecessor service `orchestrator/orchestrator.py`
implements via `validate_resolved_files`). -/
theorem resolution_bug_still_dispatches :
    (process_query [opn_agent_rec] opn_routing (some "/data")).1.status =
      "SUCCESS" ∧
    (process_query [opn_agent_rec] opn_routing (some "/data")).2.http_payload =
      some [("excel_path", PVal.null)] ∧
    (process_query [opn_agent_rec] opn_routing (some "/data")).1.file_resolution =
      some [] := by
  decide

/-- C6, counterexample.  The claim asserts that a template whose placeholder
cannot be substituted is a hard failure of the request.  It is not:
`_build_payload` catches the `KeyError`, logs a warning and keeps the
literal template string, and the request proceeds to the HTTP POST and
reports `SUCCESS`. -/
theorem unresolvable_template_kept_literal :
    (process_query [doc_agent_rec] doc_routing none).1.status = "SUCCESS" ∧
    (process_query [doc_agent_rec] doc_routing none).2.http_payload =
      some [("greeting", PVal.str "Hello \x7bmissing\x7d")] := by
  decide

/-- C6, amended.  Every entry of a (truthy) payload mapping is resolved by
`build_entry` in the source's priority order: (1) non-string values pass
through unchanged; (2) strings starting with `"resolved_"` pull from the
resolved-file map; (3) other strings containing `"{"` are template-
substituted from the parameters, and a template with a missing placeholder
(`KeyError`) is kept as the literal template string — with a logged warning,
not a failure of the request; (4) all remaining strings are literals. -/
theorem build_payload_priority (params : List (String × String))
    (resolved : List (String × Option String)) (k : String) (v : PVal)
    (s : String) :
    ((∀ t, v ≠ PVal.str t) → build_entry params resolved (k, v) = .ok (k, v)) ∧
    (py_starts_with s "resolved_" = true →
      build_entry params resolved (k, .str s) =
        .ok (k, resolved_lookup resolved (strip_resolved s))) ∧
    (py_starts_with s "resolved_" = false → py_contains_char s '\x7b' = true →
      (∀ r, format_str params s = .ok r →
        build_entry params resolved (k, .str s) = .ok (k, .str r)) ∧
      (∀ key, format_str params s = .error (.keyErr key) →
        build_entry params resolved (k, .str s) = .ok (k, .str s))) ∧
    (py_starts_with s "resolved_" = false → py_contains_char s '\x7b' = false →
      build_entry params resolved (k, .str s) = .ok (k, .str s)) ∧
    (∀ m : List (String × PVal), m ≠ [] →
      build_payload (some m) params resolved =
        m.mapM (build_entry params resolved)) := by
  refine ⟨?_, ?_, ?_, ?_, ?_⟩
  · intro hv
    cases v with
    | str t => exact absurd rfl (hv t)
    | num n => simp [build_entry]
    | boolean b => simp [build_entry]
    | null => simp [build_entry]
  · intro h
    simp [build_entry, h]
  · intro h1 h2
    constructor
    · intro r hr
      simp [build_entry, h1, h2, hr]
    · intro key hkey
      simp [build_entry, h1, h2, hkey]
  · intro h1 h2
    simp [build_entry, h1, h2]
  · intro m hm
    cases m with
    | nil => exact absurd rfl hm
    | cons kv rest => simp [build_payload]

/-- C6 amended, witness: the five clauses evaluated on concrete entries — a
numeric literal, a `resolved_excel_path` reference with a resolved file, a
substitutable template, a template with a missing placeholder (kept
literal), and a static string. -/
theorem build_payload_priority_witness :
    build_entry [("client_name", "CEP")] [("excel", some "/data/CEP W6.xlsx")]
        ("retries", PVal.num 3) = .ok ("retries", PVal.num 3) ∧
    build_entry [("client_name", "CEP")] [("excel", some "/data/CEP W6.xlsx")]
        ("excel_path", .str "resolved_excel_path") =
      .ok ("excel_path", .str "/data/CEP W6.xlsx") ∧
    build_entry [("client_name", "CEP")] [("excel", some "/data/CEP W6.xlsx")]
        ("client", .str "\x7bclient_name\x7d") = .ok ("client", .str "CEP") ∧
    build_entry [("client_name", "CEP")] [("excel", some "/data/CEP W6.xlsx")]
        ("greeting", .str "Hi \x7bmissing\x7d") =
      .ok ("greeting", .str "Hi \x7bmissing\x7d") ∧
    build_entry [("client_name", "CEP")] [("excel", some "/data/CEP W6.xlsx")]
        ("mode", .str "standard") = .ok ("mode", .str "standard") := by
  refine ⟨?_, ?_, ?_, ?_, ?_⟩
  · exact (build_payload_priority [("client_name", "CEP")]
      [("excel", some "/data/CEP W6.xlsx")] "retries" (PVal.num 3) "").1
      (fun t h => by cases h)
  · have h := (build_payload_priority [("client_name", "CEP")]
      [("excel", some "/data/CEP W6.xlsx")] "excel_path" PVal.null
      "resolved_excel_path").2.1 (by decide)
    rw [h]
    rfl
  · exact ((build_payload_priority [("client_name", "CEP")]
      [("excel", some "/data/CEP W6.xlsx")] "client" PVal.null
      "\x7bclient_name\x7d").2.2.1 (by decide) (by decide)).1 "CEP" rfl
  · exact ((build_payload_priority [("client_name", "CEP")]
      [("excel", some "/data/CEP W6.xlsx")] "greeting" PVal.null
      "Hi \x7bmissing\x7d").2.2.1 (by decide) (by decide)).2 "missing" rfl
  · exact (build_payload_priority [("client_name", "CEP")]
      [("excel", some "/data/CEP W6.xlsx")] "mode" PVal.null "standard").2.2.2.1
      (by decide) (by decide)

lemma digits_val_append (l : List Char) (c : Char) :
    digits_val (l ++ [c]) = 10 * digits_val l + (c.toNat - 48) := by
  simp [digits_val, List.foldl_append]
  omega

lemma digit_char_val (d : Nat) (hd : d < 10) : (Nat.digitChar d).toNat - 48 = d := by
  revert hd
  revert d
  decide

lemma decimal_go_val : ∀ (fuel n : Nat), n ≤ fuel → digits_val (decimal_go fuel n) = n := by
  intro fuel
  induction fuel with
  | zero =>
      intro n hn
      interval_cases n
      simp [decimal_go, digits_val]
  | succ fuel ih =>
      intro n hn
      cases n with
      | zero => simp [decimal_go, digits_val]
      | succ m =>
          have hdiv : (m + 1) / 10 ≤ fuel := by
            have h1 : (m + 1) / 10 < m + 1 := Nat.div_lt_self (Nat.succ_pos m) (by norm_num)
            omega
          rw [decimal_go, digits_val_append, ih _ hdiv,
            digit_char_val _ (Nat.mod_lt _ (by norm_num))]
          omega

lemma string_mk_inj {a b : List Char} (h : String.mk a = String.mk b) : a = b := by
  injection h

lemma string_data_inj {a b : String} (h : a.data = b.data) : a = b := by
  cases a
  cases b
  cases h
  rfl

lemma decimal_str_inj_pos {m n : Nat} (hm : 0 < m) (hn : 0 < n)
    (h : decimal_str m = decimal_str n) : m = n := by
  unfold decimal_str at h
  rw [if_neg (by omega), if_neg (by omega)] at h
  have hdata := string_mk_inj h
  have h1 := decimal_go_val m m (Nat.le_refl m)
  have h2 := decimal_go_val n n (Nat.le_refl n)
  rw [hdata] at h1
  omega

lemma data_append (a b : String) : (a ++ b).data = a.data ++ b.data := by
  cases a
  cases b
  rfl

lemma cand_name_inj (base ext : String) : ∀ i j : Nat,
    cand_name base ext i = cand_name base ext j → i = j := by
  have hlen : ∀ k : Nat, 0 < k →
      cand_name base ext 0 ≠ cand_name base ext k := by
    intro k hk hcontra
    cases k with
    | zero => omega
    | succ k0 =>
        have hd := congrArg String.data hcontra
        simp only [cand_name, data_append, List.append_assoc] at hd
        have h1 := List.append_cancel_left hd
        have h2 := congrArg List.length h1
        simp at h2
        omega
  intro i j hij
  cases i with
  | zero =>
      cases j with
      | zero => rfl
      | succ j0 => exact absurd hij (hlen (j0 + 1) (Nat.succ_pos j0))
  | succ i0 =>
      cases j with
      | zero => exact absurd hij.symm (hlen (i0 + 1) (Nat.succ_pos i0))
      | succ j0 =>
          have hd := congrArg String.data hij
          simp only [cand_name, data_append, List.append_assoc] at hd
          have h1 := List.append_cancel_left hd
          have h2 := List.append_cancel_left h1
          have h3 := List.append_cancel_right h2
          exact congrArg Nat.succ
            (Nat.succ_injective
              (decimal_str_inj_pos (Nat.succ_pos i0) (Nat.succ_pos j0)
                (string_data_inj h3)))

lemma join_path_cand_inj (dest base ext : String) {i j : Nat}
    (h : join_path dest (cand_name base ext i) = join_path dest (cand_name base ext j)) :
    i = j := by
  apply cand_name_inj base ext
  have hd := congrArg String.data h
  simp only [join_path, data_append, List.append_assoc] at hd
  have h1 := List.append_cancel_left hd
  have h2 := List.append_cancel_left h1
  exact string_data_inj h2

lemma find_free_name_not_mem (fs : List String) (dest base ext : String) :
    ∀ (fuel : Nat) (S : List String) (k : Nat),
      (∀ j, k ≤ j → join_path dest (cand_name base ext j) ∈ fs →
        join_path dest (cand_name base ext j) ∈ S) →
      S.length < fuel →
      find_free_name fs dest base ext fuel k ∉ fs := by
  intro fuel
  induction fuel with
  | zero =>
      intro S k hsub hlen
      exact absurd hlen (Nat.not_lt_zero _)
  | succ fuel ih =>
      intro S k hsub hlen
      by_cases hmem : join_path dest (cand_name base ext k) ∈ fs
      · have hS : join_path dest (cand_name base ext k) ∈ S :=
          hsub k (Nat.le_refl k) hmem
        have hnext : ∀ j, k + 1 ≤ j →
            join_path dest (cand_name base ext j) ∈ fs →
            join_path dest (cand_name base ext j) ∈
              S.erase (join_path dest (cand_name base ext k)) := by
          intro j hj hjm
          have hne : join_path dest (cand_name base ext j) ≠
              join_path dest (cand_name base ext k) := by
            intro he
            have := join_path_cand_inj dest base ext he
            omega
          exact (List.mem_erase_of_ne hne).mpr (hsub j (by omega) hjm)
        have hlen2 : (S.erase (join_path dest (cand_name base ext k))).length < fuel := by
          rw [List.length_erase_of_mem hS]
          have hpos := List.length_pos_of_mem hS
          omega
        have := ih (S.erase (join_path dest (cand_name base ext k))) (k + 1) hnext hlen2
        simpa [find_free_name, hmem] using this
      · simpa [find_free_name, hmem] using hmem

lemma safe_copy_not_mem (fs : List String) (dest base ext : String) :
    (safe_copy fs dest base ext false).2 ∉ fs := by
  have h := find_free_name_not_mem fs dest base ext (fs.length + 1) fs 0
    (fun j hj hm => hm) (Nat.lt_succ_self _)
  simpa [safe_copy] using h

/-- C9.  `safe_copy` with `overwrite=False` never writes over an existing
file: the path it returns is not in the pre-existing file system, whatever
that file system, destination folder and filename are (the rename loop
always finds a free numeric suffix).  Concretely, merging two source trees
that both contain `x.docx` in the same relative subdirectory `sub` into an
empty output folder copies both files, producing `out/sub/x.docx` and
`out/sub/x_1.docx`. -/
theorem safe_copy_merge_no_overwrite (fs : List String)
    (dest base ext : String) :
    (safe_copy fs dest base ext false).2 ∉ fs ∧
    merge_folders [] [{ rel_dir := "sub", base := "x", ext := ".docx" }]
        [{ rel_dir := "sub", base := "x", ext := ".docx" }] "out"
        allowed_extensions =
      (["out/sub/x_1.docx", "out/sub/x.docx"], 2) := by
  constructor
  · exact safe_copy_not_mem fs dest base ext
  · decide

/-- C9, witness: copying `a.docx` into a folder already holding
`out/a.docx` picks a fresh path. -/
theorem safe_copy_merge_no_overwrite_witness :
    (safe_copy ["out/a.docx"] "out" "a" ".docx" false).2 ∉ ["out/a.docx"] :=
  (safe_copy_merge_no_overwrite ["out/a.docx"] "out" "a" ".docx").1
